import Mathlib

/-!
Verification of the PocketExpense core logic: the budget-threshold evaluator
(budget branch of the expense-creation route in
`src/backend/routes/expense.routes.js`) and the offline expense queue
(`saveOfflineExpense` / `getOfflineExpenses` / `syncOfflineExpenses` in the
frontend offline-sync module, plus `addExpense` in
`src/frontend/context/ExpenseContext.tsx`).

Modelling conventions:
Money amounts and the derived percentages are rationals (`ℚ`); the source's
JavaScript numbers are used as exact decimals by the spec, and no claim here
depends on binary floating-point rounding. The durable key-value store is
modelled by the deserialized content of its single `offline_expenses` key: a
`List OfflineExpense` (an absent or unreadable key reads as `[]`, exactly as
`getOfflineExpenses` returns). `Date.now()` is passed in explicitly as a `ℕ`
millisecond timestamp. The outcome of each awaited `api.post` call during a
drain is an explicit parameter `outcome : ℕ → Bool` giving the per-index
result (`true` = the promise resolves, `false` = it rejects with a network or
server error).
-/

namespace PocketExpense

/-- Payload of an expense creation request: the draft fields the frontend
sends to `POST /expenses` (the `Omit` of `Expense` over the server-assigned
fields). `date` is kept as its serialized string form. -/
structure ExpenseDraft where
  amount : ℚ
  category : String
  paymentMethod : String
  description : String
  date : String
  deriving Repr, DecidableEq

/-- Content of each budget-warning message template built in the expense
creation route. Each constructor records the raw numeric values the
corresponding template string interpolates; the `toFixed` display rounding is
presentational (spec section 4.2) and not part of the evaluator's contract. -/
inductive BudgetMsg where
  | exceeded (newTotal ceiling percentageUsed overAmount : ℚ)
  | almostExhausted (remaining percentLeft : ℚ)
  | runningLow (remaining percentLeft : ℚ)
  | alert (percentageUsed remaining : ℚ)
  deriving Repr, DecidableEq

/-- The `budgetWarning` object returned by the expense creation route. -/
structure BudgetWarning where
  message : BudgetMsg
  isOverBudget : Bool
  remaining : ℚ
  deriving Repr, DecidableEq

/-- The budget-threshold evaluator: the `budgetWarning` computation of
`POST /` in `src/backend/routes/expense.routes.js` (lines 38-72), with the
route's local constants `remaining = budget.amount - newTotal`,
`isOverBudget = newTotal > budget.amount` and
`percentageUsed = (newTotal / budget.amount) * 100` inlined.
`newTotal` is `currentSpending + amount`; `ceiling` is `budget.amount`. -/
def budgetWarning (newTotal ceiling : ℚ) : Option BudgetWarning :=
  if newTotal > ceiling then
    some { message := .exceeded newTotal ceiling (newTotal / ceiling * 100)
             |ceiling - newTotal|,
           isOverBudget := true, remaining := ceiling - newTotal }
  else if ceiling - newTotal < ceiling * 0.05 then
    some { message := .almostExhausted (ceiling - newTotal)
             (100 - newTotal / ceiling * 100),
           isOverBudget := false, remaining := ceiling - newTotal }
  else if ceiling - newTotal < ceiling * 0.1 then
    some { message := .runningLow (ceiling - newTotal)
             (100 - newTotal / ceiling * 100),
           isOverBudget := false, remaining := ceiling - newTotal }
  else if newTotal / ceiling * 100 ≥ 0.75 then
    some { message := .alert (newTotal / ceiling * 100) (ceiling - newTotal),
           isOverBudget := false, remaining := ceiling - newTotal }
  else none

/-- C2: with the over-budget and the 5%- and 10%-remaining tiers excluded by
hypothesis, the evaluator compares the 0-100-scaled `percentageUsed` against
the literal `0.75`, returning the non-null budget-alert warning (with
`isOverBudget = false`) exactly when `total / ceiling * 100 ≥ 0.75`, and
`none` exactly when `total / ceiling * 100 < 0.75`. -/
theorem budget_alert_literal_threshold (total ceiling : ℚ) (h0 : 0 < total)
    (h1 : total ≤ ceiling) (h2 : ceiling - total ≥ ceiling * 0.05)
    (h3 : ceiling - total ≥ ceiling * 0.1) :
    (budgetWarning total ceiling =
        some { message := .alert (total / ceiling * 100) (ceiling - total),
               isOverBudget := false, remaining := ceiling - total }
      ↔ total / ceiling * 100 ≥ 0.75) ∧
    (budgetWarning total ceiling = none ↔ total / ceiling * 100 < 0.75) := by
  unfold budgetWarning
  rw [if_neg (not_lt.mpr h1), if_neg (not_lt.mpr h2), if_neg (not_lt.mpr h3)]
  by_cases hp : total / ceiling * 100 ≥ 0.75
  · rw [if_pos hp]
    refine ⟨⟨fun _ => hp, fun _ => rfl⟩,
      ⟨fun h => Option.noConfusion h, fun h => absurd hp (not_le.mpr h)⟩⟩
  · rw [if_neg hp]
    refine ⟨⟨fun h => Option.noConfusion h, fun h => absurd h hp⟩,
      ⟨fun _ => not_le.mp hp, fun _ => rfl⟩⟩

/-- Witness for C2 at the claim's instance `evaluate(total=400, ceiling=1000)`:
all hypotheses hold and the evaluator returns the budget-alert warning (since
`400 / 1000 * 100 = 40 ≥ 0.75`), not `none`. -/
theorem budget_alert_literal_threshold_witness :
    (0 : ℚ) < 400 ∧ (400 : ℚ) ≤ 1000 ∧
    (1000 : ℚ) - 400 ≥ 1000 * 0.05 ∧ (1000 : ℚ) - 400 ≥ 1000 * 0.1 ∧
    budgetWarning 400 1000 =
      some { message := .alert (400 / 1000 * 100) (1000 - 400),
             isOverBudget := false, remaining := 1000 - 400 } := by
  have h := budget_alert_literal_threshold 400 1000 (by norm_num) (by norm_num)
    (by norm_num) (by norm_num)
  exact ⟨by norm_num, by norm_num, by norm_num, by norm_num, h.1.mpr (by norm_num)⟩

/-- C3: whenever `total > ceiling` the evaluator returns the over-budget
warning: `isOverBudget = true`, `remaining = ceiling - total` (a negative
value), and the message reports the amount over (`total - ceiling`). -/
theorem budget_over_budget_tier (total ceiling : ℚ) (h : total > ceiling) :
    budgetWarning total ceiling =
      some { message := .exceeded total ceiling (total / ceiling * 100)
               (total - ceiling),
             isOverBudget := true, remaining := ceiling - total } ∧
    ceiling - total < 0 := by
  have hneg : ceiling - total < 0 := by linarith
  refine ⟨?_, hneg⟩
  unfold budgetWarning
  rw [if_pos h, abs_of_neg hneg, neg_sub]

/-- Witness for C3 at the claim's instance `evaluate(total=1200, ceiling=1000)`:
the result has `isOverBudget = true` and `remaining = -200`. -/
theorem budget_over_budget_tier_witness :
    (1200 : ℚ) > 1000 ∧
    (budgetWarning 1200 1000).map (fun w => w.isOverBudget) = some true ∧
    (budgetWarning 1200 1000).map (fun w => w.remaining) = some (-200) := by
  have h := (budget_over_budget_tier 1200 1000 (by norm_num)).1
  refine ⟨by norm_num, ?_, ?_⟩ <;> rw [h] <;> norm_num

/-- C4: with the over-budget tier excluded (`total ≤ ceiling`), the
almost-exhausted tier fires whenever `remaining < ceiling * 0.05`, returning
that warning with `isOverBudget = false` — the tiers are checked in priority
order with first match winning, so the later 10% and alert branches are never
consulted. -/
theorem budget_almost_exhausted_tier (total ceiling : ℚ) (h1 : total ≤ ceiling)
    (h2 : ceiling - total < ceiling * 0.05) :
    budgetWarning total ceiling =
      some { message := .almostExhausted (ceiling - total)
               (100 - total / ceiling * 100),
             isOverBudget := false, remaining := ceiling - total } := by
  unfold budgetWarning
  rw [if_neg (not_lt.mpr h1), if_pos h2]

/-- Witness for C4 at the claim's instance `evaluate(total=960, ceiling=1000)`:
`remaining = 40 < 50 = 5%` of the ceiling, so the almost-exhausted tier
triggers with `isOverBudget = false`. -/
theorem budget_almost_exhausted_tier_witness :
    (960 : ℚ) ≤ 1000 ∧ (1000 : ℚ) - 960 < 1000 * 0.05 ∧
    budgetWarning 960 1000 =
      some { message := .almostExhausted (1000 - 960) (100 - 960 / 1000 * 100),
             isOverBudget := false, remaining := 1000 - 960 } := by
  exact ⟨by norm_num, by norm_num,
    budget_almost_exhausted_tier 960 1000 (by norm_num) (by norm_num)⟩

/-- An expense record as it sits in the offline queue: the `expenseWithId`
object built by `saveOfflineExpense` (draft fields spread, plus the
temporary `_id`, the placeholder `userId` and the `isOffline` tag). -/
structure OfflineExpense where
  amount : ℚ
  category : String
  paymentMethod : String
  description : String
  date : String
  _id : String
  userId : String
  isOffline : Bool
  deriving Repr, DecidableEq

/-- The `expenseWithId` record `saveOfflineExpense` constructs from a draft:
the draft's fields spread, `_id` set to `offline_` followed by `Date.now()`,
`userId` set to the empty placeholder, and `isOffline` set. -/
def offlineExpenseOf (now : ℕ) (d : ExpenseDraft) : OfflineExpense :=
  { amount := d.amount, category := d.category, paymentMethod := d.paymentMethod,
    description := d.description, date := d.date,
    _id := "offline_" ++ toString now, userId := "", isOffline := true }

/-- The `enqueue` operation `saveOfflineExpense`: reads the stored queue,
pushes the freshly tagged record, persists the updated list and returns the
tagged record. `now` stands for the `Date.now()` call. -/
def saveOfflineExpense (now : ℕ) (d : ExpenseDraft)
    (store : List OfflineExpense) : OfflineExpense × List OfflineExpense :=
  (offlineExpenseOf now d, store ++ [offlineExpenseOf now d])

/-- The `listQueued` operation `getOfflineExpenses`: deserializes the stored
queue (an absent or unreadable key already reads as `[]` in this model). -/
def getOfflineExpenses (store : List OfflineExpense) : List OfflineExpense :=
  store

/-- The destructuring `const \x7b isOffline, _id, userId, ...expenseData \x7d`
inside the drain loop: the payload posted for a queued entry, with the
offline-only fields stripped. -/
def stripOffline (e : OfflineExpense) : ExpenseDraft :=
  { amount := e.amount, category := e.category, paymentMethod := e.paymentMethod,
    description := e.description, date := e.date }

/-- The `syncedIds` array built by the drain loop of `syncOfflineExpenses`:
iterating the queue in order, the entry at position `i` has its `_id` pushed
exactly when its awaited `api.post` call resolves (`outcome i = true`). -/
def collectSyncedIds (outcome : ℕ → Bool) : ℕ → List OfflineExpense → List String
  | _, [] => []
  | i, e :: rest =>
    if outcome i then e._id :: collectSyncedIds outcome (i + 1) rest
    else collectSyncedIds outcome (i + 1) rest

/-- Result object of `syncOfflineExpenses`: `\x7b synced, remaining \x7d`. -/
structure DrainResult where
  synced : ℕ
  remaining : ℕ
  deriving Repr, DecidableEq

/-- The `drain` operation `syncOfflineExpenses`: on an empty queue it returns
`\x7b synced: 0, remaining: 0 \x7d` without touching the store; otherwise it
posts every entry's stripped payload in order, collects the `_id`s of the
entries whose call resolved, filters the queue down to the entries whose
`_id` was not collected, persists that filtered list and returns the counts.
The third component is the trace of payloads posted to `POST /expenses`
during the pass, in posting order. -/
def syncOfflineExpenses (outcome : ℕ → Bool) (store : List OfflineExpense) :
    DrainResult × List OfflineExpense × List ExpenseDraft :=
  if store.length = 0 then ({ synced := 0, remaining := 0 }, store, [])
  else
    ({ synced := (collectSyncedIds outcome 0 store).length,
       remaining := (store.filter
         (fun e => !((collectSyncedIds outcome 0 store).contains e._id))).length },
     store.filter (fun e => !((collectSyncedIds outcome 0 store).contains e._id)),
     store.map stripOffline)

/-- A sequence of `enqueue` calls, each given by its `Date.now()` timestamp
and draft, applied in order to the store. -/
def enqueueAll : List (ℕ × ExpenseDraft) → List OfflineExpense → List OfflineExpense
  | [], store => store
  | c :: rest, store => enqueueAll rest (saveOfflineExpense c.1 c.2 store).2

theorem enqueueAll_eq (calls : List (ℕ × ExpenseDraft))
    (store : List OfflineExpense) :
    enqueueAll calls store =
      store ++ calls.map (fun c => offlineExpenseOf c.1 c.2) := by
  induction calls generalizing store with
  | nil => simp [enqueueAll]
  | cons c rest ih =>
    simp [enqueueAll, saveOfflineExpense, ih]

/-- C7: starting from an empty store, a sequence of enqueue calls with no
intervening drain leaves the queue holding exactly one tagged record per
call, in insertion order, so `listQueued` returns `n` entries in order. -/
theorem enqueue_monotonic (calls : List (ℕ × ExpenseDraft)) :
    getOfflineExpenses (enqueueAll calls []) =
      calls.map (fun c => offlineExpenseOf c.1 c.2) ∧
    (getOfflineExpenses (enqueueAll calls [])).length = calls.length ∧
    ∀ e ∈ getOfflineExpenses (enqueueAll calls []), e.isOffline = true := by
  refine ⟨by simp [getOfflineExpenses, enqueueAll_eq], ?_, ?_⟩
  · simp [getOfflineExpenses, enqueueAll_eq]
  · intro e he
    simp only [getOfflineExpenses, enqueueAll_eq, List.nil_append,
      List.mem_map] at he
    obtain ⟨c, _, rfl⟩ := he
    rfl

/-- C6: enqueueing a draft and then draining posts, as the payload for the
enqueued entry, exactly the original draft — the stripped record coincides
field-for-field with the draft, the offline-only tag and temporary
identifier removed — and the drain's post trace is the stripped queue with
that draft as its final element. -/
theorem enqueue_drain_roundtrip (outcome : ℕ → Bool) (now : ℕ)
    (d : ExpenseDraft) (store : List OfflineExpense) :
    stripOffline (saveOfflineExpense now d store).1 = d ∧
    (syncOfflineExpenses outcome (saveOfflineExpense now d store).2).2.2 =
      store.map stripOffline ++ [d] := by
  constructor
  · rfl
  · have hne : ((store ++ [offlineExpenseOf now d]).length = 0) = False := by
      simp
    simp only [syncOfflineExpenses, saveOfflineExpense, hne, if_false]
    simp [stripOffline, offlineExpenseOf]

/-- The entries whose remote call fails during a drain pass, in their
original relative order: the queue content the spec says must remain after
the pass (position-indexed rendering of "entries that did not sync"). -/
def failedEntries (outcome : ℕ → Bool) :
    ℕ → List OfflineExpense → List OfflineExpense
  | _, [] => []
  | i, e :: rest =>
    if outcome i then failedEntries outcome (i + 1) rest
    else e :: failedEntries outcome (i + 1) rest

/-- Number of queue positions whose remote call succeeds in a drain pass. -/
def successCount (outcome : ℕ → Bool) : ℕ → List OfflineExpense → ℕ
  | _, [] => 0
  | i, _ :: rest =>
    if outcome i then successCount outcome (i + 1) rest + 1
    else successCount outcome (i + 1) rest

theorem mem_ids_of_mem_collectSyncedIds (outcome : ℕ → Bool) (x : String)
    (q : List OfflineExpense) :
    ∀ n, x ∈ collectSyncedIds outcome n q → x ∈ q.map (fun e => e._id) := by
  induction q with
  | nil => intro n h; exact absurd h (List.not_mem_nil x)
  | cons e rest ih =>
    intro n h
    simp only [collectSyncedIds] at h
    simp only [List.map_cons, List.mem_cons]
    by_cases ho : outcome n = true
    · rw [if_pos ho] at h
      rcases List.mem_cons.mp h with h1 | h2
      · exact Or.inl h1
      · exact Or.inr (ih (n + 1) h2)
    · rw [if_neg ho] at h
      exact Or.inr (ih (n + 1) h)

theorem length_collectSyncedIds (outcome : ℕ → Bool)
    (q : List OfflineExpense) :
    ∀ n, (collectSyncedIds outcome n q).length = successCount outcome n q := by
  induction q with
  | nil => intro n; rfl
  | cons e rest ih =>
    intro n
    simp only [collectSyncedIds, successCount]
    by_cases ho : outcome n = true
    · rw [if_pos ho, if_pos ho, List.length_cons, ih]
    · rw [if_neg ho, if_neg ho, ih]

theorem filter_not_synced_eq_failed (outcome : ℕ → Bool)
    (q : List OfflineExpense) :
    ∀ n, (q.map (fun e => e._id)).Nodup →
      q.filter (fun e => !((collectSyncedIds outcome n q).contains e._id)) =
        failedEntries outcome n q := by
  induction q with
  | nil => intro n _; rfl
  | cons e rest ih =>
    intro n hnd
    rw [List.map_cons, List.nodup_cons] at hnd
    obtain ⟨hhead, htail⟩ := hnd
    simp only [collectSyncedIds, failedEntries]
    by_cases ho : outcome n = true
    · rw [if_pos ho, if_pos ho, List.filter_cons]
      have hc : ((e._id :: collectSyncedIds outcome (n + 1) rest).contains
          e._id) = true :=
        List.elem_iff.mpr (List.mem_cons_self _ _)
      rw [hc]
      have hcong : rest.filter (fun x =>
            !((e._id :: collectSyncedIds outcome (n + 1) rest).contains x._id)) =
          rest.filter (fun x =>
            !((collectSyncedIds outcome (n + 1) rest).contains x._id)) := by
        apply List.filter_congr
        intro x hx
        have hne : x._id ≠ e._id := fun hxe =>
          hhead (List.mem_map.mpr ⟨x, hx, hxe⟩)
        rw [List.contains_cons, beq_eq_false_iff_ne.mpr hne, Bool.false_or]
      simp only [Bool.not_true]
      rw [if_neg Bool.false_ne_true, hcong, ih (n + 1) htail]
    · rw [if_neg ho, if_neg ho, List.filter_cons]
      have hnc : ((collectSyncedIds outcome (n + 1) rest).contains e._id) =
          false := by
        rw [Bool.eq_false_iff]
        intro hcontr
        exact hhead (mem_ids_of_mem_collectSyncedIds outcome e._id rest (n + 1)
          (List.elem_iff.mp hcontr))
      rw [hnc]
      simp only [Bool.not_false]
      rw [if_pos trivial, ih (n + 1) htail]

theorem syncOfflineExpenses_queue_eq_failed (outcome : ℕ → Bool)
    (q : List OfflineExpense) (hnd : (q.map (fun e => e._id)).Nodup) :
    (syncOfflineExpenses outcome q).2.1 = failedEntries outcome 0 q := by
  rcases q with _ | ⟨e, rest⟩
  · rfl
  · unfold syncOfflineExpenses
    rw [if_neg (by simp : ¬ ((e :: rest).length = 0))]
    exact filter_not_synced_eq_failed outcome (e :: rest) 0 hnd

/-- C1 (amended): for a queued list whose entries carry pairwise-distinct
identifiers, a drain posts every entry's stripped payload in insertion
order, the persisted queue afterwards is exactly the failed entries in their
original relative order, `syncedCount` is the number of successes and
`remainingCount` the number of failures — a single failure never aborts the
pass. -/
theorem drain_partial_failure_isolation (outcome : ℕ → Bool)
    (q : List OfflineExpense) (hnd : (q.map (fun e => e._id)).Nodup) :
    (syncOfflineExpenses outcome q).2.1 = failedEntries outcome 0 q ∧
    (syncOfflineExpenses outcome q).2.2 = q.map stripOffline ∧
    (syncOfflineExpenses outcome q).1.synced = successCount outcome 0 q ∧
    (syncOfflineExpenses outcome q).1.remaining =
      (failedEntries outcome 0 q).length := by
  refine ⟨syncOfflineExpenses_queue_eq_failed outcome q hnd, ?_⟩
  rcases q with _ | ⟨e, rest⟩
  · exact ⟨rfl, rfl, rfl⟩
  · unfold syncOfflineExpenses
    rw [if_neg (by simp : ¬ ((e :: rest).length = 0))]
    refine ⟨rfl, length_collectSyncedIds outcome (e :: rest) 0, ?_⟩
    show ((e :: rest).filter _).length = _
    rw [filter_not_synced_eq_failed outcome (e :: rest) 0 hnd]

/-- Witness for C1 at the claim's instance: 3 queued entries where only the
2nd remote call fails; after the drain the queue contains exactly the 2nd
entry and the result is `syncedCount = 2`, `remainingCount = 1`. -/
theorem drain_partial_failure_isolation_witness :
    (([offlineExpenseOf 1 ⟨5, "Food", "Cash", "", "2024-01-01"⟩,
       offlineExpenseOf 2 ⟨6, "Transport", "Card", "", "2024-01-02"⟩,
       offlineExpenseOf 3 ⟨7, "Bills", "UPI", "", "2024-01-03"⟩].map
        (fun e => e._id)).Nodup) ∧
    (syncOfflineExpenses (fun i => i != 1)
      [offlineExpenseOf 1 ⟨5, "Food", "Cash", "", "2024-01-01"⟩,
       offlineExpenseOf 2 ⟨6, "Transport", "Card", "", "2024-01-02"⟩,
       offlineExpenseOf 3 ⟨7, "Bills", "UPI", "", "2024-01-03"⟩]).2.1 =
      failedEntries (fun i => i != 1) 0
        [offlineExpenseOf 1 ⟨5, "Food", "Cash", "", "2024-01-01"⟩,
         offlineExpenseOf 2 ⟨6, "Transport", "Card", "", "2024-01-02"⟩,
         offlineExpenseOf 3 ⟨7, "Bills", "UPI", "", "2024-01-03"⟩] ∧
    failedEntries (fun i => i != 1) 0
        [offlineExpenseOf 1 ⟨5, "Food", "Cash", "", "2024-01-01"⟩,
         offlineExpenseOf 2 ⟨6, "Transport", "Card", "", "2024-01-02"⟩,
         offlineExpenseOf 3 ⟨7, "Bills", "UPI", "", "2024-01-03"⟩] =
      [offlineExpenseOf 2 ⟨6, "Transport", "Card", "", "2024-01-02"⟩] ∧
    (syncOfflineExpenses (fun i => i != 1)
      [offlineExpenseOf 1 ⟨5, "Food", "Cash", "", "2024-01-01"⟩,
       offlineExpenseOf 2 ⟨6, "Transport", "Card", "", "2024-01-02"⟩,
       offlineExpenseOf 3 ⟨7, "Bills", "UPI", "", "2024-01-03"⟩]).1 =
      { synced := 2, remaining := 1 } := by
  refine ⟨by decide, ?_, by decide, by decide⟩
  exact (drain_partial_failure_isolation (fun i => i != 1)
    [offlineExpenseOf 1 ⟨5, "Food", "Cash", "", "2024-01-01"⟩,
     offlineExpenseOf 2 ⟨6, "Transport", "Card", "", "2024-01-02"⟩,
     offlineExpenseOf 3 ⟨7, "Bills", "UPI", "", "2024-01-03"⟩] (by decide)).1

theorem collectSyncedIds_all_success (outcome : ℕ → Bool)
    (h : ∀ i, outcome i = true) (q : List OfflineExpense) :
    ∀ n, collectSyncedIds outcome n q = q.map (fun e => e._id) := by
  induction q with
  | nil => intro n; rfl
  | cons e rest ih =>
    intro n
    simp only [collectSyncedIds, h n, if_true, List.map_cons, ih]

/-- C5: when every remote call succeeds, the first drain reports
`remainingCount = 0` and persists an empty queue, and a second drain run on
the resulting store (under any remote outcomes) returns
`\x7b syncedCount: 0, remainingCount: 0 \x7d` and leaves the queue unchanged. -/
theorem drain_idempotent (outcome outcome2 : ℕ → Bool)
    (q : List OfflineExpense) (hall : ∀ i, outcome i = true) :
    (syncOfflineExpenses outcome q).1.remaining = 0 ∧
    (syncOfflineExpenses outcome q).2.1 = [] ∧
    syncOfflineExpenses outcome2 (syncOfflineExpenses outcome q).2.1 =
      ({ synced := 0, remaining := 0 },
        (syncOfflineExpenses outcome q).2.1, []) := by
  have key : (syncOfflineExpenses outcome q).2.1 = [] ∧
      (syncOfflineExpenses outcome q).1.remaining = 0 := by
    rcases q with _ | ⟨e, rest⟩
    · exact ⟨rfl, rfl⟩
    · unfold syncOfflineExpenses
      rw [if_neg (by simp : ¬ ((e :: rest).length = 0))]
      have hf : (e :: rest).filter (fun x =>
          !((collectSyncedIds outcome 0 (e :: rest)).contains x._id)) = [] := by
        rw [List.filter_eq_nil_iff]
        intro a ha
        have hmem : a._id ∈ collectSyncedIds outcome 0 (e :: rest) := by
          rw [collectSyncedIds_all_success outcome hall]
          exact List.mem_map.mpr ⟨a, ha, rfl⟩
        simp [hmem]
      refine ⟨hf, ?_⟩
      show ((e :: rest).filter _).length = 0
      rw [hf]
      rfl
  refine ⟨key.2, key.1, ?_⟩
  rw [key.1]
  rfl

/-- Witness for C5: a concrete singleton queue with all remote calls
succeeding; the first drain empties the queue and the second returns zero
counts on the unchanged (empty) store. -/
theorem drain_idempotent_witness :
    (∀ i : ℕ, (fun _ : ℕ => true) i = true) ∧
    (syncOfflineExpenses (fun _ => true)
      [offlineExpenseOf 4 ⟨9, "Health", "Cash", "", "2024-02-01"⟩]).1.remaining
        = 0 ∧
    (syncOfflineExpenses (fun _ => true)
      [offlineExpenseOf 4 ⟨9, "Health", "Cash", "", "2024-02-01"⟩]).2.1 = [] ∧
    syncOfflineExpenses (fun _ => false)
        (syncOfflineExpenses (fun _ => true)
          [offlineExpenseOf 4 ⟨9, "Health", "Cash", "", "2024-02-01"⟩]).2.1 =
      ({ synced := 0, remaining := 0 },
        (syncOfflineExpenses (fun _ => true)
          [offlineExpenseOf 4 ⟨9, "Health", "Cash", "", "2024-02-01"⟩]).2.1,
        []) := by
  have h := drain_idempotent (fun _ => true) (fun _ => false)
    [offlineExpenseOf 4 ⟨9, "Health", "Cash", "", "2024-02-01"⟩]
    (fun _ => rfl)
  exact ⟨fun _ => rfl, h.1, h.2.1, h.2.2⟩

/-- Counterexample to C1 as stated (quantifying over every queued list):
two simultaneously queued entries enqueued in the same millisecond share the
identifier `offline_7`; with the 1st remote call failing and the 2nd
succeeding, removal by collected identifier also removes the failed 1st
entry, so the persisted queue is empty instead of holding the failed entry,
and `remainingCount` is 0 instead of the number of failures (1). -/
theorem drain_duplicate_id_cex :
    ¬ ((syncOfflineExpenses (fun i => i == 1)
          [offlineExpenseOf 7 ⟨1, "Food", "Cash", "", "2024-03-01"⟩,
           offlineExpenseOf 7 ⟨2, "Transport", "Card", "", "2024-03-02"⟩]).2.1 =
        failedEntries (fun i => i == 1) 0
          [offlineExpenseOf 7 ⟨1, "Food", "Cash", "", "2024-03-01"⟩,
           offlineExpenseOf 7 ⟨2, "Transport", "Card", "", "2024-03-02"⟩] ∧
       (syncOfflineExpenses (fun i => i == 1)
          [offlineExpenseOf 7 ⟨1, "Food", "Cash", "", "2024-03-01"⟩,
           offlineExpenseOf 7 ⟨2, "Transport", "Card", "", "2024-03-02"⟩]).1.remaining =
        (failedEntries (fun i => i == 1) 0
          [offlineExpenseOf 7 ⟨1, "Food", "Cash", "", "2024-03-01"⟩,
           offlineExpenseOf 7 ⟨2, "Transport", "Card", "", "2024-03-02"⟩]).length) := by
  decide

/-- A server expense as found in the `POST /expenses` response body; only the
`_id` field is inspected by the creation flow, with the empty string standing
for a missing or otherwise falsy server identifier. -/
structure Expense where
  _id : String
  deriving Repr, DecidableEq

/-- Failure modes of the awaited `api.post` in `addExpense`, as probed by the
catch block: a network-unreachable rejection carries no `response` property;
a server rejection (an HTTP 4xx/5xx response) carries a response whose body
may hold a `message` string (`none` models an absent field). -/
inductive RemoteError where
  | networkUnreachable
  | serverRejected (message : Option String)
  deriving Repr, DecidableEq

/-- JavaScript `x || dflt` on an optional string: the default replaces both
an absent field and an empty (falsy) one. -/
def jsOrDefault (m : Option String) (dflt : String) : String :=
  match m with
  | none => dflt
  | some s => if s = "" then dflt else s

/-- Result object returned by `addExpense`; `offline` models the optional
`offline: true` flag (absent reads as `false`), and the `expense` payload,
which no claim inspects, is omitted. -/
structure AddExpenseResult where
  success : Bool
  offline : Bool
  message : Option String
  deriving Repr, DecidableEq

/-- The creation flow `addExpense` of `ExpenseContext.tsx`, restricted to its
effect on the offline queue and its returned result object; `remote` is the
outcome of the initial `api.post('/expenses', expenseData)` call. A resolved
response lacking a valid `_id` raises inside the `try`, and that thrown
`Error`, having no `response` property, lands in the same catch branch as a
network-unreachable failure; a server rejection returns the failure message
and leaves the queue untouched. -/
def addExpense (remote : Except RemoteError Expense) (now : ℕ)
    (d : ExpenseDraft) (store : List OfflineExpense) :
    AddExpenseResult × List OfflineExpense :=
  match remote with
  | .ok e =>
    if e._id = "" then
      ({ success := true, offline := true, message := none },
        (saveOfflineExpense now d store).2)
    else
      ({ success := true, offline := false, message := none }, store)
  | .error .networkUnreachable =>
    ({ success := true, offline := true, message := none },
      (saveOfflineExpense now d store).2)
  | .error (.serverRejected msg) =>
    ({ success := false, offline := false,
       message := some (jsOrDefault msg "Failed to add expense") }, store)

/-- C8: when the initial submission fails network-unreachable (no HTTP
response), `addExpense` enqueues the draft offline and returns a success
result flagged offline; when it fails server-rejected (an HTTP 4xx/5xx
response), it returns a failure result carrying the server's message (or the
generic fallback) and does not enqueue anything. -/
theorem addExpense_failure_discrimination (now : ℕ) (d : ExpenseDraft)
    (store : List OfflineExpense) :
    addExpense (.error .networkUnreachable) now d store =
      ({ success := true, offline := true, message := none },
        store ++ [offlineExpenseOf now d]) ∧
    ∀ msg, addExpense (.error (.serverRejected msg)) now d store =
      ({ success := false, offline := false,
         message := some (jsOrDefault msg "Failed to add expense") }, store) :=
  ⟨rfl, fun _ => rfl⟩

/-- Counterexample to C9 as stated: two enqueue calls within the same
millisecond (`Date.now()` returning 7 for both) leave two distinct entries
simultaneously present in the queue that share the identifier `offline_7` —
the temporary identifier is unique only per millisecond. -/
theorem enqueue_same_ms_id_collision_cex :
    ((saveOfflineExpense 7 ⟨2, "Transport", "Card", "", "2024-03-02"⟩
        (saveOfflineExpense 7 ⟨1, "Food", "Cash", "", "2024-03-01"⟩ []).2).2).Nodup
    ∧
    ¬ (((saveOfflineExpense 7 ⟨2, "Transport", "Card", "", "2024-03-02"⟩
          (saveOfflineExpense 7 ⟨1, "Food", "Cash", "", "2024-03-01"⟩ []).2).2).map
            (fun e => e._id)).Nodup := by
  decide

/-- Numeric value of a decimal digit character. -/
def digitVal (c : Char) : ℕ :=
  c.toNat - 48

/-- Decimal decoding of a digit list, most-significant digit first. -/
def decodeDigits (l : List Char) : ℕ :=
  l.foldl (fun a c => a * 10 + digitVal c) 0

theorem digitVal_digitChar (m : ℕ) (h : m < 10) :
    digitVal (Nat.digitChar m) = m := by
  interval_cases m <;> rfl

/-- Digit list (most significant first) of a natural number in base 10, as
produced by the core `Nat.toDigitsCore`, written as a structurally explicit
function. -/
def natDigits (n : ℕ) : List Char :=
  if h : n < 10 then [Nat.digitChar (n % 10)]
  else natDigits (n / 10) ++ [Nat.digitChar (n % 10)]
decreasing_by exact Nat.div_lt_self (by omega) (by omega)

theorem toDigitsCore_eq_natDigits (fuel : ℕ) :
    ∀ (n : ℕ) (ds : List Char), n < fuel →
      Nat.toDigitsCore 10 fuel n ds = natDigits n ++ ds := by
  induction fuel with
  | zero => intro n ds h; omega
  | succ f ih =>
    intro n ds h
    rw [Nat.toDigitsCore]
    by_cases h0 : n / 10 = 0
    · have hlt : n < 10 := by
        rwa [Nat.div_eq_zero_iff (by omega : 0 < 10)] at h0
      rw [if_pos h0, natDigits, dif_pos hlt]
      rfl
    · have hge : ¬ n < 10 := fun hc =>
        h0 (by rwa [Nat.div_eq_zero_iff (by omega : 0 < 10)])
      have hfuel : n / 10 < f := by
        have h1 : n / 10 < n := Nat.div_lt_self (by omega) (by omega)
        omega
      rw [if_neg h0, ih (n / 10) (Nat.digitChar (n % 10) :: ds) hfuel]
      conv_rhs => rw [natDigits]
      rw [dif_neg hge, List.append_assoc]
      rfl

theorem decodeDigits_append_singleton (l : List Char) (c : Char) :
    decodeDigits (l ++ [c]) = decodeDigits l * 10 + digitVal c := by
  simp [decodeDigits, List.foldl_append]

theorem decodeDigits_natDigits (n : ℕ) : decodeDigits (natDigits n) = n := by
  induction n using Nat.strong_induction_on with
  | _ n ih =>
    rw [natDigits]
    by_cases h : n < 10
    · rw [dif_pos h]
      have hmod : n % 10 = n := Nat.mod_eq_of_lt h
      show 0 * 10 + digitVal (Nat.digitChar (n % 10)) = n
      rw [digitVal_digitChar (n % 10) (Nat.mod_lt n (by omega)), hmod]
      omega
    · rw [dif_neg h, decodeDigits_append_singleton,
        ih (n / 10) (Nat.div_lt_self (by omega) (by omega)),
        digitVal_digitChar (n % 10) (Nat.mod_lt n (by omega))]
      omega

theorem natDigits_injective (m n : ℕ) (h : natDigits m = natDigits n) :
    m = n := by
  have hm := decodeDigits_natDigits m
  rw [h, decodeDigits_natDigits] at hm
  exact hm.symm

theorem natRepr_injective (m n : ℕ) (h : Nat.repr m = Nat.repr n) : m = n := by
  have hm : Nat.repr m = (natDigits m).asString := by
    show (Nat.toDigits 10 m).asString = _
    rw [Nat.toDigits, toDigitsCore_eq_natDigits (m + 1) m [] (by omega),
      List.append_nil]
  have hn : Nat.repr n = (natDigits n).asString := by
    show (Nat.toDigits 10 n).asString = _
    rw [Nat.toDigits, toDigitsCore_eq_natDigits (n + 1) n [] (by omega),
      List.append_nil]
  rw [hm, hn] at h
  exact natDigits_injective m n (List.asString_inj.mp h)

theorem offlineId_injective (m n : ℕ)
    (h : ("offline_" ++ toString m : String) = "offline_" ++ toString n) :
    m = n := by
  have hdata := congrArg String.data h
  rw [String.data_append, String.data_append] at hdata
  have htail := List.append_cancel_left hdata
  exact natRepr_injective m n (String.toList_inj.mp htail)

/-- C9 (amended): every identifier assigned by enqueue carries the `offline`
marker as its leading characters, and entries created by enqueue calls at
pairwise-distinct millisecond timestamps carry pairwise-distinct
identifiers (uniqueness can fail only for enqueues within one millisecond);
consequently a drain over such a queue removes by collected identifier
exactly the entries that synced, leaving exactly the failed ones. -/
theorem enqueue_distinct_ms_id_unique (calls : List (ℕ × ExpenseDraft))
    (h : (calls.map Prod.fst).Nodup) :
    ((enqueueAll calls []).map (fun e => e._id)).Nodup ∧
    (∀ e ∈ enqueueAll calls [], ∃ t : ℕ, e._id = "offline_" ++ toString t) ∧
    ∀ outcome : ℕ → Bool,
      (syncOfflineExpenses outcome (enqueueAll calls [])).2.1 =
        failedEntries outcome 0 (enqueueAll calls []) := by
  have hnd : ((enqueueAll calls []).map (fun e => e._id)).Nodup := by
    rw [enqueueAll_eq, List.nil_append, List.map_map]
    have hcomp : ((fun e : OfflineExpense => e._id) ∘
        fun c : ℕ × ExpenseDraft => offlineExpenseOf c.1 c.2) =
        (fun t : ℕ => "offline_" ++ toString t) ∘ Prod.fst := rfl
    rw [hcomp, ← List.map_map]
    exact h.map (fun a b hab => offlineId_injective a b hab)
  refine ⟨hnd, ?_, fun outcome =>
    syncOfflineExpenses_queue_eq_failed outcome (enqueueAll calls []) hnd⟩
  intro e he
  rw [enqueueAll_eq, List.nil_append, List.mem_map] at he
  obtain ⟨c, _, rfl⟩ := he
  exact ⟨c.1, rfl⟩

/-- Witness for C9 (amended): two enqueues at distinct milliseconds carry
distinct identifiers, each led by the `offline_` marker. -/
theorem enqueue_distinct_ms_id_unique_witness :
    (([(5, ⟨1, "Food", "Cash", "", "2024-03-01"⟩),
       (6, ⟨2, "Transport", "Card", "", "2024-03-02"⟩)] :
        List (ℕ × ExpenseDraft)).map Prod.fst).Nodup ∧
    ((enqueueAll
        [(5, ⟨1, "Food", "Cash", "", "2024-03-01"⟩),
         (6, ⟨2, "Transport", "Card", "", "2024-03-02"⟩)] []).map
          (fun e => e._id)).Nodup ∧
    ∀ e ∈ enqueueAll
        [(5, ⟨1, "Food", "Cash", "", "2024-03-01"⟩),
         (6, ⟨2, "Transport", "Card", "", "2024-03-02"⟩)] [],
      ∃ t : ℕ, e._id = "offline_" ++ toString t := by
  have h := enqueue_distinct_ms_id_unique
    [(5, ⟨1, "Food", "Cash", "", "2024-03-01"⟩),
     (6, ⟨2, "Transport", "Card", "", "2024-03-02"⟩)] (by decide)
  exact ⟨by decide, h.1, h.2.1⟩

/-- Interleaved schedule of a drain pass with a concurrent enqueue, drawn
from the await structure of `syncOfflineExpenses`: the drain reads the queue
(`store`), then awaits one `api.post` per entry, and only afterwards writes
its filtered snapshot back; the enqueue's own read-modify-write completes
inside that awaited window (legal in the cooperative event loop, since the
drain suspends at each awaited call between its read and its final write),
persisting `store` with the new entry appended — which the drain's final
write then replaces with the filter of its earlier snapshot. On an empty
queue the drain returns before posting anything and never writes, so the
enqueue's write is the last one. The value is the queue content persisted
once both operations have finished. -/
def drainWithConcurrentEnqueue (outcome : ℕ → Bool) (now : ℕ)
    (d : ExpenseDraft) (store : List OfflineExpense) : List OfflineExpense :=
  if store.length = 0 then (saveOfflineExpense now d store).2
  else (syncOfflineExpenses outcome store).2.1

/-- C10 fails on the code (the spec's no-lost-enqueue requirement is
violated): with one queued entry whose remote call succeeds, an expense
whose enqueue completes during the drain's awaited remote call is absent
from the queue the drain finally persists — the drain's final write is the
filter of its stale snapshot and silently discards the concurrently
enqueued expense. -/
theorem drain_loses_concurrent_enqueue :
    drainWithConcurrentEnqueue (fun _ => true) 9
        ⟨3, "Shopping", "UPI", "", "2024-04-01"⟩
        [offlineExpenseOf 1 ⟨5, "Food", "Cash", "", "2024-01-01"⟩] = [] ∧
    offlineExpenseOf 9 ⟨3, "Shopping", "UPI", "", "2024-04-01"⟩ ∉
      drainWithConcurrentEnqueue (fun _ => true) 9
        ⟨3, "Shopping", "UPI", "", "2024-04-01"⟩
        [offlineExpenseOf 1 ⟨5, "Food", "Cash", "", "2024-01-01"⟩] := by
  decide

end PocketExpense
